import Mathlib

/-!
Verification development for the EDAPGui obstruction-detection and
avoidance-maneuver core.

The definitions below are a shallow embedding of the Python source:

* `classify`            — the occlusion classification logic of
                          `Test_Routines.test_occlusion_logic` (the decision
                          structure of `is_destination_occluded`): solid-target
                          veto, occluded-template confirmation, ring-shape
                          fallback, default clear.
* `parse_distance`      — the distance text parser of
                          `test_parse_dist.parse_distance`, including a model of
                          the regex search for a number-unit pattern,
                          the doubled-decimal-point repair, and the unit
                          conversion to kilometers.
* `acquireLoop`         — the compass-gate polling loop of
                          `SupercruiseAvoidance._acquire_escape_heading`.
* `flyAwayT`            — the guaranteed-duration fly-away loop of
                          `SupercruiseAvoidance._attempt_maneuver`.
* `attemptManeuver`     — a single avoidance attempt
                          (`SupercruiseAvoidance._attempt_maneuver`).
* `scExecute`           — the retry/hard-escape driver
                          (`SupercruiseAvoidance.execute`).
* `sunPitchLoop` / `sunFlyLoop` — the two polling loops of
                          `SunAvoidance.execute`.

Python floats are modelled by `ℚ` (all constants involved are decimal
literals, exactly representable), wall-clock readings and detector outputs are
supplied as explicit input traces, and emitted flight-input commands are
recorded in an effect list.
-/

namespace EDAP

/-! ## Occlusion classifier (Test_Routines.py, test_occlusion_logic) -/

/-- Reason attached to an occlusion verdict: veto (solid target visible),
template (occluded template matched), shape (dashed circle found), clear
(no occlusion detected). -/
inductive Reason where
  | veto
  | template
  | shape
  | clear
deriving DecidableEq, Repr

/-- Output of the ring shape detector `detect_dashed_circle`
(`found`, `score`), as consumed by the classifier. -/
structure RingResult where
  found : Bool
  score : ℚ
deriving DecidableEq, Repr

/-- The template-matching scores and thresholds that
`test_occlusion_logic` reads before arbitrating: the solid-target pass-1 and
x3 scores with threshold, and the occluded-target pass-1 and x3 scores with
threshold. -/
structure OcclusionInputs where
  targetValP1 : ℚ
  targetValX3 : ℚ
  targetThresh : ℚ
  occValP1 : ℚ
  occValX3 : ℚ
  occThresh : ℚ
deriving DecidableEq, Repr

/-- The classifier verdict: `occluded` flag, reason, and the three scores the
routine returns (`target_val`, `occ_val`, `circle_score`). -/
structure OcclusionVerdict where
  occluded : Bool
  reason : Reason
  targetScore : ℚ
  occScore : ℚ
  ringScore : ℚ
deriving DecidableEq, Repr

/-- The circle score reported by the routine: the ring detector is only run
(`if not occ_template_detected`), otherwise `circle_score` keeps its
initial value `0.0`. -/
def ringScoreOut (inp : OcclusionInputs) (ring : RingResult) : ℚ :=
  if max inp.occValP1 inp.occValX3 ≥ inp.occThresh then 0 else ring.score

/-- The decision cascade of `test_occlusion_logic`:
`target_visible = max(target_val_p1, target_val_x3) >= target_thresh` (veto),
`occ_template_detected = max(occ_val_p1, occ_val_x3) >= occ_thresh`, the
dashed-circle fallback is only consulted when the occluded template did not
fire, and the final decision is the veto / template / shape / clear cascade. -/
def classify (inp : OcclusionInputs) (ring : RingResult) : OcclusionVerdict :=
  if max inp.targetValP1 inp.targetValX3 ≥ inp.targetThresh then
    ⟨false, Reason.veto, max inp.targetValP1 inp.targetValX3,
      max inp.occValP1 inp.occValX3, ringScoreOut inp ring⟩
  else if max inp.occValP1 inp.occValX3 ≥ inp.occThresh then
    ⟨true, Reason.template, max inp.targetValP1 inp.targetValX3,
      max inp.occValP1 inp.occValX3, ringScoreOut inp ring⟩
  else if ring.found then
    ⟨true, Reason.shape, max inp.targetValP1 inp.targetValX3,
      max inp.occValP1 inp.occValX3, ringScoreOut inp ring⟩
  else
    ⟨false, Reason.clear, max inp.targetValP1 inp.targetValX3,
      max inp.occValP1 inp.occValX3, ringScoreOut inp ring⟩

/-! ## Distance text parser (test_parse_dist.py, parse_distance) -/

/-- The unit alternatives of the regex `(Mm|km|m|ls)`. -/
inductive DistUnit where
  | Mm
  | km
  | m
  | ls
deriving DecidableEq, Repr

/-- A character matched by the regex character class `[\d\.]`. -/
def isDigitDot (c : Char) : Bool := c.isDigit || c == '.'

/-- A character matched by the regex class `\s` (Python whitespace). -/
def isSpaceChar (c : Char) : Bool :=
  c == ' ' || c == '\t' || c == '\n' || c == '\r' || c == '\x0b' || c == '\x0c'

/-- The alternation `(Mm|km|m|ls)` tried at a fixed position, alternatives in
the regex order. -/
def matchUnit : List Char → Option DistUnit
  | 'M' :: 'm' :: _ => some DistUnit.Mm
  | 'k' :: 'm' :: _ => some DistUnit.km
  | 'm' :: _ => some DistUnit.m
  | 'l' :: 's' :: _ => some DistUnit.ls
  | _ => none

/-- Model of `re.search(r"([\d\.]+)\s*(Mm|km|m|ls)", text)`: scan start
positions left to right; at a position starting with `[\d.]`, the greedy
`[\d\.]+` takes the maximal run (no shorter run can be followed by `\s*` and
a unit letter, because the character right after a shorter run is again in
`[\d.]`), `\s*` then takes the maximal whitespace run, and the unit
alternation is tried; on failure the scan moves to the next start position. -/
def findNumberUnit : List Char → Option (List Char × DistUnit)
  | [] => none
  | c :: rest =>
    if isDigitDot c then
      match matchUnit ((rest.dropWhile isDigitDot).dropWhile isSpaceChar) with
      | some u => some (c :: rest.takeWhile isDigitDot, u)
      | none => findNumberUnit rest
    else
      findNumberUnit rest

/-- `val_str.replace("..", ".")`: non-overlapping left-to-right replacement of
doubled dots by a single dot (the guarding `if ".." in val_str` in the source
is redundant: replacement is the identity when no `".."` occurs). -/
def fixDots : List Char → List Char
  | '.' :: '.' :: rest => '.' :: fixDots rest
  | c :: rest => c :: fixDots rest
  | [] => []

/-- Decimal value of a digit run (empty run gives 0, matching the integer or
fractional part of Python `float` being allowed to be empty in `"5."`/`".5"`). -/
def natOfDigits (cs : List Char) : ℕ :=
  cs.foldl (fun n c => 10 * n + (c.toNat - '0'.toNat)) 0

/-- Model of `float(val_str)` on a string drawn from `[\d.]+`: it succeeds
iff the string has at most one dot and at least one digit, yielding
`intPart.fracPart`; otherwise `float` raises `ValueError` (modelled as
`none`). -/
def parseFloatQ (cs : List Char) : Option ℚ :=
  if cs.all isDigitDot ∧ cs.count '.' ≤ 1 ∧ cs.any Char.isDigit then
    some ((natOfDigits (cs.takeWhile (fun c => c != '.')) : ℚ) +
      (natOfDigits ((cs.dropWhile (fun c => c != '.')).drop 1) : ℚ) /
        (10 : ℚ) ^ ((cs.dropWhile (fun c => c != '.')).drop 1).length)
  else
    none

/-- The unit conversion to kilometers: `Mm` × 1000, `km` × 1, `m` ÷ 1000,
`ls` × 299792. -/
def convertUnit : DistUnit → ℚ → ℚ
  | DistUnit.Mm, v => v * 1000
  | DistUnit.km, v => v
  | DistUnit.m, v => v / 1000
  | DistUnit.ls, v => v * 299792

/-- `parse_distance(text)`: regex search for a number-unit pattern, repair of
doubled decimal points, float conversion (returning `None` on
`ValueError`), and unit conversion; `None` when the regex does not match. -/
def parse_distance (text : String) : Option ℚ :=
  match findNumberUnit text.toList with
  | none => none
  | some (valStr, u) =>
    match parseFloatQ (fixDots valStr) with
    | none => none
    | some value => some (convertUnit u value)

/-- Helper: `parse_distance("7.5km")` evaluates to 7.5 km. -/
lemma parse_75km : parse_distance "7.5km" = some (15 / 2) := by
  have h1 : findNumberUnit ("7.5km".toList) = some (['7', '.', '5'], DistUnit.km) := by decide
  have h2 : fixDots ['7', '.', '5'] = ['7', '.', '5'] := by decide
  have h3 : natOfDigits ['7'] = 7 := by decide
  have h4 : natOfDigits ['5'] = 5 := by decide
  have h5 : List.takeWhile (fun c => c != '.') ['7', '.', '5'] = ['7'] := by decide
  have h6 : List.dropWhile (fun c => c != '.') ['7', '.', '5'] = ['.', '5'] := by decide
  rw [parse_distance, h1]
  dsimp only
  rw [h2, parseFloatQ, if_pos (by decide)]
  dsimp only
  rw [h5, h6]
  dsimp only [List.tail, List.length]
  norm_num [h3, h4, convertUnit]

/-- Helper: `parse_distance("4..5km")` repairs the doubled decimal point and
evaluates to 4.5 km. -/
lemma parse_45km : parse_distance "4..5km" = some (9 / 2) := by
  have h1 : findNumberUnit ("4..5km".toList) = some (['4', '.', '.', '5'], DistUnit.km) := by
    decide
  have h2 : fixDots ['4', '.', '.', '5'] = ['4', '.', '5'] := by decide
  have h3 : natOfDigits ['4'] = 4 := by decide
  have h4 : natOfDigits ['5'] = 5 := by decide
  have h5 : List.takeWhile (fun c => c != '.') ['4', '.', '5'] = ['4'] := by decide
  have h6 : List.dropWhile (fun c => c != '.') ['4', '.', '5'] = ['.', '5'] := by decide
  rw [parse_distance, h1]
  dsimp only
  rw [h2, parseFloatQ, if_pos (by decide)]
  dsimp only
  rw [h5, h6]
  dsimp only [List.tail, List.length]
  norm_num [h3, h4, convertUnit]

/-- Helper: `parse_distance("1.2Mm")` evaluates to 1200 km. -/
lemma parse_12Mm : parse_distance "1.2Mm" = some 1200 := by
  have h1 : findNumberUnit ("1.2Mm".toList) = some (['1', '.', '2'], DistUnit.Mm) := by decide
  have h2 : fixDots ['1', '.', '2'] = ['1', '.', '2'] := by decide
  have h3 : natOfDigits ['1'] = 1 := by decide
  have h4 : natOfDigits ['2'] = 2 := by decide
  have h5 : List.takeWhile (fun c => c != '.') ['1', '.', '2'] = ['1'] := by decide
  have h6 : List.dropWhile (fun c => c != '.') ['1', '.', '2'] = ['.', '2'] := by decide
  rw [parse_distance, h1]
  dsimp only
  rw [h2, parseFloatQ, if_pos (by decide)]
  dsimp only
  rw [h5, h6]
  dsimp only [List.tail, List.length]
  norm_num [h3, h4, convertUnit]

/-- Helper: `parse_distance("800m")` evaluates to 0.8 km. -/
lemma parse_800m : parse_distance "800m" = some (4 / 5) := by
  have h1 : findNumberUnit ("800m".toList) = some (['8', '0', '0'], DistUnit.m) := by decide
  have h2 : fixDots ['8', '0', '0'] = ['8', '0', '0'] := by decide
  have h3 : natOfDigits ['8', '0', '0'] = 800 := by decide
  have h4 : natOfDigits [] = 0 := by decide
  have h5 : List.takeWhile (fun c => c != '.') ['8', '0', '0'] = ['8', '0', '0'] := by decide
  have h6 : List.dropWhile (fun c => c != '.') ['8', '0', '0'] = [] := by decide
  rw [parse_distance, h1]
  dsimp only
  rw [h2, parseFloatQ, if_pos (by decide)]
  dsimp only
  rw [h5, h6]
  dsimp only [List.tail, List.length]
  norm_num [h3, h4, convertUnit]

/-- Helper: `parse_distance("2ls")` converts with the 299792 factor. -/
lemma parse_2ls : parse_distance "2ls" = some 599584 := by
  have h1 : findNumberUnit ("2ls".toList) = some (['2'], DistUnit.ls) := by decide
  have h2 : fixDots ['2'] = ['2'] := by decide
  have h3 : natOfDigits ['2'] = 2 := by decide
  have h4 : natOfDigits [] = 0 := by decide
  have h5 : List.takeWhile (fun c => c != '.') ['2'] = ['2'] := by decide
  have h6 : List.dropWhile (fun c => c != '.') ['2'] = [] := by decide
  rw [parse_distance, h1]
  dsimp only
  rw [h2, parseFloatQ, if_pos (by decide)]
  dsimp only
  rw [h5, h6]
  dsimp only [List.tail, List.length]
  norm_num [h3, h4, convertUnit]

/-- Helper: when the regex does not match, `parse_distance` returns `None`. -/
lemma parse_none_no_match (t : String) (h : findNumberUnit t.toList = none) :
    parse_distance t = none := by
  rw [parse_distance, h]

/-- Helper: when the captured value is non-numeric (float raises), the parser
returns `None`. -/
lemma parse_none_bad_float (t : String) (run : List Char) (u : DistUnit)
    (h1 : findNumberUnit t.toList = some (run, u))
    (h2 : parseFloatQ (fixDots run) = none) :
    parse_distance t = none := by
  rw [parse_distance, h1]
  dsimp only
  rw [h2]

/-! ## Flight-input effects

Commands emitted through the autopilot collaborators (`keys.send`,
`pitchUp`/`pitchDown`, `yawRight`/`yawLeft`, `nav_align`, `ap_ckb`).
An effect list records, in order, every such call a modelled routine makes. -/

/-- One emitted effect. `keySend a (some 1)` / `keySend a (some 0)` are the
press/release holds of `keys.send(a, state=1/0)`; `keySend a none` is a plain
`keys.send(a)`. -/
inductive Eff where
  | keySend (action : String) (st : Option ℕ)
  | pitchUp (deg : ℚ)
  | pitchDown (deg : ℚ)
  | yawRight (deg : ℚ)
  | yawLeft (deg : ℚ)
  | navAlign
  | notify (channel : String) (msg : String)
deriving DecidableEq, Repr

/-- An effect that drives the flight-input channel (anything that is not a
log/voice callback). -/
def isFlightEff : Eff → Bool
  | Eff.notify _ _ => false
  | _ => true

/-- An effect that sets the ship's speed (`keys.send('SetSpeedZero' | 'SetSpeed50'
| 'SetSpeed100')`). -/
def isSpeedEff : Eff → Bool
  | Eff.keySend a _ => a == "SetSpeedZero" || a == "SetSpeed50" || a == "SetSpeed100"
  | _ => false

/-! ## Escape-heading gate (SupercruiseAvoidance._acquire_escape_heading) -/

/-- Module constant `COMPASS_CONFIDENCE_THRESHOLD = 0.4`. -/
def COMPASS_CONFIDENCE_THRESHOLD : ℚ := 2 / 5

/-- Module constant `NAVPOINT_CONFIDENCE_THRESHOLD = 0.4`. -/
def NAVPOINT_CONFIDENCE_THRESHOLD : ℚ := 2 / 5

/-- Configuration read at the top of `_acquire_escape_heading`, with the
source defaults (`RequireBehindPip=True`, `CompassEdgeThreshold=0.9`,
`EscapeHeadingTimeoutSeconds=12.0`, `MinPitchSeconds=1.5`). -/
structure GateConfig where
  requireBehind : Bool := true
  edgeThreshold : ℚ := 9 / 10
  timeout : ℚ := 12
  minPitch : ℚ := 3 / 2
deriving Repr

/-- One iteration of the escape-heading polling loop: `tEnter` is
`time.time() - start_time` at the `while` condition, `elapsed` the value
recomputed after `get_nav_offset`, and the remaining fields are the nav
offset reading (`compass_conf`, `nav_conf`, `y`, `z`). -/
structure NavPoll where
  tEnter : ℚ
  elapsed : ℚ
  compassConf : ℚ
  navConf : ℚ
  y : ℚ
  z : ℚ
deriving Repr

/-- The confidence check of the loop:
`compass_conf > COMPASS_CONFIDENCE_THRESHOLD and nav_conf > NAVPOINT_CONFIDENCE_THRESHOLD`. -/
def confCheck (p : NavPoll) : Bool :=
  decide (COMPASS_CONFIDENCE_THRESHOLD < p.compassConf) &&
    decide (NAVPOINT_CONFIDENCE_THRESHOLD < p.navConf)

/-- The inner gate check: `y_ok = nav['y'] <= -edge_threshold`,
`z_ok = (nav['z'] < 0) if require_behind else True`, and the minimum pitch
time `elapsed >= min_pitch`. -/
def gateCheck (cfg : GateConfig) (p : NavPoll) : Bool :=
  decide (p.y ≤ -cfg.edgeThreshold) &&
    (if cfg.requireBehind then decide (p.z < 0) else true) &&
    decide (cfg.minPitch ≤ p.elapsed)

/-- The polling loop of `_acquire_escape_heading`, driven by the finite trace
of nav readings it would observe: while the elapsed time is below the
timeout, poll; exit with `True` (gate satisfied) as soon as the confidence
check and the gate check both pass; exhausting the timeout (or the trace)
gives `False`. -/
def acquireLoop (cfg : GateConfig) : List NavPoll → Bool
  | [] => false
  | p :: rest =>
    if p.tEnter < cfg.timeout then
      if confCheck p then
        if gateCheck cfg p then true else acquireLoop cfg rest
      else acquireLoop cfg rest
    else false

/-- The conditions of the escape-heading gate, as one proposition: both
confidence scores above 0.4, the pip at the bottom edge, the pip behind when
`require_behind` is configured, and the minimum pitch time reached. -/
def gateConds (cfg : GateConfig) (p : NavPoll) : Prop :=
  COMPASS_CONFIDENCE_THRESHOLD < p.compassConf ∧
  NAVPOINT_CONFIDENCE_THRESHOLD < p.navConf ∧
  p.y ≤ -cfg.edgeThreshold ∧
  (cfg.requireBehind = true → p.z < 0) ∧
  cfg.minPitch ≤ p.elapsed

/-- Helper: the two boolean checks of one loop iteration succeed exactly when
`gateConds` holds. -/
lemma checks_iff_gateConds (cfg : GateConfig) (p : NavPoll) :
    (confCheck p = true ∧ gateCheck cfg p = true) ↔ gateConds cfg p := by
  unfold confCheck gateCheck gateConds
  cases hrb : cfg.requireBehind <;>
    simp [hrb, Bool.and_eq_true, decide_eq_true_eq, and_assoc]

/-! ## Fly-away loop (SupercruiseAvoidance._attempt_maneuver, phase 4) -/

/-- Brightness threshold `SUN_BRIGHTNESS_THRESHOLD = 5` shared by
`_is_path_clear` and the sun-avoidance script. -/
def SUN_BRIGHTNESS_THRESHOLD : ℚ := 5

/-- `_is_path_clear`: the path is clear unless the measured sun brightness
percentage exceeds the threshold. -/
def pathClear (sunPercent : ℚ) : Bool :=
  decide (sunPercent ≤ SUN_BRIGHTNESS_THRESHOLD)

/-- One iteration of the fly-away loop: `t` is `time.time() - start_flight`
at the `while` condition, and the environment readings the body may consult:
the sun brightness, the interdiction flag, and the occlusion state — the
last is offered by the environment every iteration but the source
deliberately never reads it (`We do NOT check is_destination_occluded()`). -/
structure FlyTick where
  t : ℚ
  sunPercent : ℚ
  interdicted : Bool
  occluded : Bool
deriving DecidableEq, Repr

/-- How the fly-away loop ended: the guaranteed duration elapsed
(`completed`, continuing to the pitch-back phase) or an interdiction was
detected (`interdicted`, `return True` out of the whole attempt). -/
inductive FlyExit where
  | completed
  | interdicted
deriving DecidableEq, Repr

/-- The guaranteed-duration fly-away loop (`while (time.time() - start_flight)
< duration`): a star ahead triggers a corrective pitch-up pulse without
aborting; an interdiction returns immediately; the occlusion state is never
read. -/
def flyAwayT (duration : ℚ) : List FlyTick → FlyExit × List Eff
  | [] => (FlyExit.completed, [])
  | k :: rest =>
    if k.t < duration then
      let pulse := if pathClear k.sunPercent then [] else
        [Eff.notify "log" "Star detected, pitching up",
         Eff.keySend "PitchUpButton" (some 1),
         Eff.keySend "PitchUpButton" (some 0)]
      if k.interdicted then (FlyExit.interdicted, pulse)
      else
        let r := flyAwayT duration rest
        (r.1, pulse ++ r.2)
    else (FlyExit.completed, [])

/-! ## Single attempt (SupercruiseAvoidance._attempt_maneuver) -/

/-- The external observations one call of `_attempt_maneuver` consumes: the
nav polls seen by the escape-heading loop, the measured wall-clock pitch
duration it would report on success, the fly-away ticks, and the two
`is_destination_occluded` readings of the debounced final check. -/
structure AttemptEnv where
  navPolls : List NavPoll
  pitchMeasured : ℚ
  flyTicks : List FlyTick
  occludedA : Bool
  occludedB : Bool

/-- `_attempt_maneuver(scr_reg, duration, yaw_drift_deg, attempt_idx)`:
slow down, acquire the escape heading (fallback `yaw 180°, pitch up 45°`
when the compass gate fails, with an approximate 3s duration), optional yaw
drift, guaranteed-duration fly-away (interdiction returns `True`
immediately), then pitch back by `pitch_duration * pitch_rate` degrees,
reverse the yaw drift, re-align, and re-check occlusion with a debounce;
returns `True` when the destination is clear. -/
def attemptManeuver (gcfg : GateConfig) (pitchRate0 : ℚ) (duration : ℚ)
    (yawDriftDeg : ℚ) (attemptIdx : ℕ) (env : AttemptEnv) : Bool × List Eff :=
  let intro := [Eff.notify "log+vce" ("Avoidance attempt " ++ toString (attemptIdx + 1)),
                Eff.keySend "SetSpeed50" none]
  let gate := acquireLoop gcfg env.navPolls
  let acquireEffs := [Eff.keySend "PitchUpButton" (some 1),
                      Eff.keySend "PitchUpButton" (some 0)]
  let headEffs := if gate then acquireEffs
    else acquireEffs ++ [Eff.notify "log" "Compass unreliable, fallback escape",
                         Eff.yawRight 180, Eff.pitchUp 45]
  let pitchDuration := if gate then env.pitchMeasured else 3
  let yawEffs := if 0 < yawDriftDeg then [Eff.yawRight yawDriftDeg] else []
  let pre := intro ++ headEffs ++ yawEffs ++ [Eff.keySend "SetSpeed100" none]
  let fr := flyAwayT duration env.flyTicks
  match fr.1 with
  | FlyExit.interdicted => (true, pre ++ fr.2)
  | FlyExit.completed =>
    let pitchRate := if pitchRate0 ≤ 0 then 10 else pitchRate0
    let post := [Eff.keySend "SetSpeed50" none,
                 Eff.pitchDown (pitchDuration * pitchRate)] ++
      (if 0 < yawDriftDeg then [Eff.yawLeft yawDriftDeg] else []) ++ [Eff.navAlign]
    let occluded := env.occludedA && env.occludedB
    (!occluded, pre ++ fr.2 ++ post)

/-! ## Retry driver (SupercruiseAvoidance.execute) -/

/-- The configuration values read by `execute`, with the source defaults. -/
structure SCConfig where
  maxAttempts : ℕ := 3
  durationBase : ℚ := 60
  durationMax : ℚ := 120
  yawDegrees : ℚ := 15
  hardEscapeSeconds : ℚ := 120
deriving Repr

/-- The per-attempt fly-away duration of `execute`:
`duration = base_duration + (i * 30); duration = min(duration, duration_max)`. -/
def scDuration (cfg : SCConfig) (i : ℕ) : ℚ :=
  min (cfg.durationBase + (i : ℚ) * 30) cfg.durationMax

/-- The per-attempt yaw drift of `execute`:
`yaw = 0 if i == 0 else yaw_increment`. -/
def scYaw (cfg : SCConfig) (i : ℕ) : ℚ :=
  if i = 0 then 0 else cfg.yawDegrees

/-- A record of one `_attempt_maneuver` invocation: the arguments `execute`
passed it. -/
structure AttemptCall where
  duration : ℚ
  yawDrift : ℚ
  index : ℕ
  isHard : Bool
deriving DecidableEq, Repr

/-- The retry loop of `execute` followed by the hard escape: at attempt `i`
with `rem` standard attempts left, run `_attempt_maneuver` with the
escalated duration and yaw drift; a success returns `True`; exhaustion
performs the hard escape (long duration, `yaw_increment * 1.5`, index 99)
whose own result is discarded, and returns `True`. Returns the result, the
emitted effects, and the log of `_attempt_maneuver` calls. -/
def scTryAttempts (cfg : SCConfig) (gcfg : GateConfig) (pitchRate : ℚ)
    (envs : ℕ → AttemptEnv) : ℕ → ℕ → Bool × List Eff × List AttemptCall
  | _, 0 =>
    let hard : AttemptCall := ⟨cfg.hardEscapeSeconds, cfg.yawDegrees * (3 / 2), 99, true⟩
    let hr := attemptManeuver gcfg pitchRate hard.duration hard.yawDrift hard.index (envs 99)
    (true,
     Eff.notify "log+vce" "Hard Escape Initiated" ::
       hr.2 ++ [Eff.notify "log+vce" "Avoidance Sequence Complete"],
     [hard])
  | i, rem + 1 =>
    let c : AttemptCall := ⟨scDuration cfg i, scYaw cfg i, i, false⟩
    let r := attemptManeuver gcfg pitchRate c.duration c.yawDrift c.index (envs i)
    if r.1 then (true, r.2 ++ [Eff.notify "log+vce" "Obstruction cleared"], [c])
    else
      let next := scTryAttempts cfg gcfg pitchRate envs (i + 1) rem
      (next.1, r.2 ++ next.2.1, c :: next.2.2)

/-- `SupercruiseAvoidance.execute(scr_reg)`: the safety guard aborts with
`True` (and no maneuver) when `get_destination_offset` resolves; otherwise
the retry loop runs from attempt 0 with `max_attempts` standard attempts,
ending in the unconditional hard escape. -/
def scExecute (cfg : SCConfig) (gcfg : GateConfig) (pitchRate : ℚ)
    (destOffset : Option (ℚ × ℚ)) (envs : ℕ → AttemptEnv) :
    Bool × List Eff × List AttemptCall :=
  match destOffset with
  | some _ => (true, [Eff.notify "log" "Avoidance aborted: Target visible"], [])
  | none =>
    let r := scTryAttempts cfg gcfg pitchRate envs 0 cfg.maxAttempts
    (r.1, Eff.notify "log+vce" "Target occluded, avoiding" :: r.2.1, r.2.2)

/-! ## Sun avoidance loops (scripts/SunAvoidance.py, execute) -/

/-- One iteration of a sun-avoidance polling loop: the brightness reading,
the interdiction flag, and the elapsed time relevant to that loop's bound. -/
structure SunTick where
  sunPercent : ℚ
  interdicted : Bool
  elapsed : ℚ
deriving DecidableEq, Repr

/-- How the pitch-up loop of `SunAvoidance.execute` ended: brightness
dropped to ≤ 5 (`cleared`), interdiction (`interdicted`, returning `True`
from `execute`), or the failsafe timeout (`timedOut`). -/
inductive SunPitchExit where
  | cleared
  | interdicted
  | timedOut
deriving DecidableEq, Repr

/-- Phase 1 of `SunAvoidance.execute` (`while True`): stop pitching once the
sun reading is ≤ 5; on interdiction release the pitch hold, zero the speed
and return `True`; break anyway past the failsafe timeout. `none` when the
trace ends before any exit condition fires (the real loop would keep
polling). -/
def sunPitchLoop (failSafeTimeout : ℚ) : List SunTick → Option (SunPitchExit × List Eff)
  | [] => none
  | k :: rest =>
    if k.sunPercent ≤ 5 then some (SunPitchExit.cleared, [])
    else if k.interdicted then
      some (SunPitchExit.interdicted,
        [Eff.keySend "PitchUpButton" (some 0), Eff.keySend "SetSpeedZero" none])
    else if failSafeTimeout < k.elapsed then some (SunPitchExit.timedOut, [])
    else sunPitchLoop failSafeTimeout rest

/-- Phase 2 of `SunAvoidance.execute` (`while (time.time() - avoidance_start)
< avoidance_duration`): an interdiction returns `True` immediately;
a re-detected sun (reading > 5) triggers a 1s corrective pitch-up pulse
without restarting the maneuver. -/
def sunFlyLoop (duration : ℚ) : List SunTick → FlyExit × List Eff
  | [] => (FlyExit.completed, [])
  | k :: rest =>
    if k.elapsed < duration then
      if k.interdicted then (FlyExit.interdicted, [])
      else
        let pulse := if 5 < k.sunPercent then
          [Eff.keySend "PitchUpButton" (some 1), Eff.keySend "PitchUpButton" (some 0)]
          else []
        let r := sunFlyLoop duration rest
        (r.1, pulse ++ r.2)
    else (FlyExit.completed, [])

/-! ## Theorems: occlusion classifier -/

/-- C1: veto invariant of the occlusion classifier — whenever the
solid-target template score (max of the native and x3 passes) is at least
the solid-target threshold, `classify` returns `occluded = False` with
reason `veto`, irrespective of the occluded-template scores and of the ring
detector's output. -/
theorem C1_veto_invariant (inp : OcclusionInputs) (ring : RingResult)
    (h : max inp.targetValP1 inp.targetValX3 ≥ inp.targetThresh) :
    (classify inp ring).occluded = false ∧ (classify inp ring).reason = Reason.veto := by
  unfold classify
  rw [if_pos h]
  exact ⟨rfl, rfl⟩

/-- Witness for C1 at a concrete frame: solid target at threshold while the
occluded template is also at threshold and the ring detector reports a find. -/
theorem C1_witness :
    (classify ⟨1, 0, 1, 1, 1, 1⟩ ⟨true, 1⟩).occluded = false ∧
    (classify ⟨1, 0, 1, 1, 1, 1⟩ ⟨true, 1⟩).reason = Reason.veto :=
  C1_veto_invariant ⟨1, 0, 1, 1, 1, 1⟩ ⟨true, 1⟩ (le_max_left 1 0)

/-- C2: priority ordering — when the occluded-template best score meets its
threshold, the ring detector's output is never consulted (the verdict is the
same for any two detector outputs), and absent the veto the verdict is
`occluded = True` with reason `template`; moreover a `shape` verdict can
only arise when the occluded-template score missed its threshold (the shape
fallback is only attempted when template confirmation fails). -/
theorem C2_priority (inp : OcclusionInputs) (r1 r2 : RingResult) :
    (max inp.occValP1 inp.occValX3 ≥ inp.occThresh →
      classify inp r1 = classify inp r2 ∧
      (max inp.targetValP1 inp.targetValX3 < inp.targetThresh →
        (classify inp r1).occluded = true ∧ (classify inp r1).reason = Reason.template)) ∧
    ((classify inp r1).reason = Reason.shape →
      max inp.occValP1 inp.occValX3 < inp.occThresh ∧
      max inp.targetValP1 inp.targetValX3 < inp.targetThresh) := by
  constructor
  · intro hocc
    have hr : ringScoreOut inp r1 = ringScoreOut inp r2 := by
      unfold ringScoreOut
      rw [if_pos hocc, if_pos hocc]
    constructor
    · unfold classify
      by_cases ht : max inp.targetValP1 inp.targetValX3 ≥ inp.targetThresh
      · rw [if_pos ht, if_pos ht, hr]
      · rw [if_neg ht, if_neg ht, if_pos hocc, if_pos hocc, hr]
    · intro ht
      have ht2 : ¬ (max inp.targetValP1 inp.targetValX3 ≥ inp.targetThresh) := not_le.mpr ht
      unfold classify
      rw [if_neg ht2, if_pos hocc]
      exact ⟨rfl, rfl⟩
  · intro hshape
    unfold classify at hshape
    by_cases ht : max inp.targetValP1 inp.targetValX3 ≥ inp.targetThresh
    · rw [if_pos ht] at hshape
      simp at hshape
    · by_cases hocc : max inp.occValP1 inp.occValX3 ≥ inp.occThresh
      · rw [if_neg ht, if_pos hocc] at hshape
        simp at hshape
      · exact ⟨not_le.mp hocc, not_le.mp ht⟩

/-- Witness for C2 at a concrete frame: occluded template at threshold, solid
target below threshold, two maximally different ring-detector outputs. -/
theorem C2_witness :
    classify ⟨0, 0, 1, 1, 0, 1⟩ ⟨true, 1⟩ = classify ⟨0, 0, 1, 1, 0, 1⟩ ⟨false, 0⟩ ∧
    (classify ⟨0, 0, 1, 1, 0, 1⟩ ⟨true, 1⟩).occluded = true ∧
    (classify ⟨0, 0, 1, 1, 0, 1⟩ ⟨true, 1⟩).reason = Reason.template := by
  have h := (C2_priority ⟨0, 0, 1, 1, 0, 1⟩ ⟨true, 1⟩ ⟨false, 0⟩).1 (le_max_left 1 0)
  exact ⟨h.1, h.2 (by norm_num [max_self])⟩

/-! ## Theorems: escape-heading gate -/

/-- Helper: the gate loop reports success only if some poll within the
timeout satisfies all gate conditions. -/
lemma acquire_only_if (cfg : GateConfig) (polls : List NavPoll) :
    acquireLoop cfg polls = true →
    ∃ p ∈ polls, p.tEnter < cfg.timeout ∧ gateConds cfg p := by
  induction polls with
  | nil => intro h; simp [acquireLoop] at h
  | cons p rest ih =>
    intro h
    unfold acquireLoop at h
    by_cases ht : p.tEnter < cfg.timeout
    · rw [if_pos ht] at h
      by_cases hc : confCheck p = true
      · rw [if_pos hc] at h
        by_cases hg : gateCheck cfg p = true
        · exact ⟨p, List.mem_cons_self p rest, ht, (checks_iff_gateConds cfg p).mp ⟨hc, hg⟩⟩
        · rw [if_neg hg] at h
          obtain ⟨q, hq, hqt, hqc⟩ := ih h
          exact ⟨q, List.mem_cons_of_mem p hq, hqt, hqc⟩
      · rw [if_neg hc] at h
        obtain ⟨q, hq, hqt, hqc⟩ := ih h
        exact ⟨q, List.mem_cons_of_mem p hq, hqt, hqc⟩
    · rw [if_neg ht] at h
      exact absurd h (by simp)

/-- Helper: if every poll fails some gate condition the loop reports failure. -/
lemma acquire_fails (cfg : GateConfig) (polls : List NavPoll)
    (hall : ∀ p ∈ polls, ¬ gateConds cfg p) :
    acquireLoop cfg polls = false := by
  cases ha : acquireLoop cfg polls
  · rfl
  · obtain ⟨p, hp, _, hc⟩ := acquire_only_if cfg polls ha
    exact absurd hc (hall p hp)

/-- C3: escape-heading gate — the acquisition loop succeeds only when, on one
poll within the timeout, compass confidence > 0.4, nav confidence > 0.4, the
pip's vertical coordinate is ≤ −edge_threshold, the pip's depth is negative
when the require-behind option is on, and the elapsed pitch time is at least
the configured minimum; and when every poll fails at least one of the
conditions, the gate reports failure. -/
theorem C3_escape_gate (cfg : GateConfig) (polls : List NavPoll) :
    (acquireLoop cfg polls = true →
      ∃ p ∈ polls, p.tEnter < cfg.timeout ∧ gateConds cfg p) ∧
    ((∀ p ∈ polls, ¬ gateConds cfg p) → acquireLoop cfg polls = false) :=
  ⟨acquire_only_if cfg polls, acquire_fails cfg polls⟩

/-- Witness for C3 at a concrete run: a gate configuration requiring the
behind pip, and a single poll satisfying every condition. -/
theorem C3_witness :
    acquireLoop ⟨true, 1, 12, 1⟩ [⟨0, 2, 1, 1, -1, -1⟩] = true ∧
    ∃ p ∈ [(⟨0, 2, 1, 1, -1, -1⟩ : NavPoll)],
      p.tEnter < (⟨true, 1, 12, 1⟩ : GateConfig).timeout ∧ gateConds ⟨true, 1, 12, 1⟩ p := by
  have ha : acquireLoop ⟨true, 1, 12, 1⟩ [⟨0, 2, 1, 1, -1, -1⟩] = true := by
    norm_num [acquireLoop, confCheck, gateCheck,
      COMPASS_CONFIDENCE_THRESHOLD, NAVPOINT_CONFIDENCE_THRESHOLD]
  exact ⟨ha, (C3_escape_gate ⟨true, 1, 12, 1⟩ [⟨0, 2, 1, 1, -1, -1⟩]).1 ha⟩

/-! ## Theorems: fly-away guarantee -/

/-- Two fly-away ticks agreeing on everything the loop body reads (time, sun
brightness, interdiction) — the occlusion reading is left unconstrained. -/
def sameObs (a b : FlyTick) : Prop :=
  a.t = b.t ∧ a.sunPercent = b.sunPercent ∧ a.interdicted = b.interdicted

/-- Helper: the fly-away loop never reads the occlusion field — traces that
agree on every other field produce identical results. -/
lemma flyAwayT_congr (duration : ℚ) {ts ts' : List FlyTick}
    (h : List.Forall₂ sameObs ts ts') :
    flyAwayT duration ts = flyAwayT duration ts' := by
  induction h with
  | nil => rfl
  | cons hab _ ih =>
    obtain ⟨h1, h2, h3⟩ := hab
    unfold flyAwayT
    rw [h1, h2, h3, ih]

/-- Helper: an interdicted exit of the fly-away loop comes from an
interdicted tick observed inside the duration window. -/
lemma flyAwayT_interdicted (duration : ℚ) (ts : List FlyTick) :
    (flyAwayT duration ts).1 = FlyExit.interdicted →
    ∃ k ∈ ts, k.interdicted = true ∧ k.t < duration := by
  induction ts with
  | nil => intro h; simp [flyAwayT] at h
  | cons k rest ih =>
    intro h
    by_cases ht : k.t < duration
    · by_cases hi : k.interdicted = true
      · exact ⟨k, List.mem_cons_self k rest, hi, ht⟩
      · simp only [flyAwayT, if_pos ht, if_neg hi] at h
        obtain ⟨q, hq, h1, h2⟩ := ih h
        exact ⟨q, List.mem_cons_of_mem k hq, h1, h2⟩
    · simp only [flyAwayT, if_neg ht] at h
      exact absurd h (by simp)

/-- Helper: with no interdiction in the trace, the loop exits by the
duration condition (completed), never early. -/
lemma flyAwayT_no_interdiction (duration : ℚ) (ts : List FlyTick)
    (h : ∀ k ∈ ts, k.interdicted = false) :
    (flyAwayT duration ts).1 = FlyExit.completed := by
  cases hf : (flyAwayT duration ts).1
  · rfl
  · obtain ⟨k, hk, hi, _⟩ := flyAwayT_interdicted duration ts hf
    exact Bool.noConfusion ((h k hk).symm.trans hi)

/-- C5: fly-away duration guarantee — the fly-away loop never samples the
occlusion state (its outcome and emitted commands are identical on any two
traces differing only in the occlusion reading), an early (interdicted) exit
can only come from an interdiction signal inside the duration window, and
with no interdiction the loop always runs to the duration condition. -/
theorem C5_flyaway_guarantee (duration : ℚ) (ts ts' : List FlyTick) :
    (List.Forall₂ sameObs ts ts' → flyAwayT duration ts = flyAwayT duration ts') ∧
    ((flyAwayT duration ts).1 = FlyExit.interdicted →
      ∃ k ∈ ts, k.interdicted = true ∧ k.t < duration) ∧
    ((∀ k ∈ ts, k.interdicted = false) → (flyAwayT duration ts).1 = FlyExit.completed) :=
  ⟨fun h => flyAwayT_congr duration h,
   flyAwayT_interdicted duration ts,
   flyAwayT_no_interdiction duration ts⟩

/-- Witness for C5 at a concrete run: a tick whose occlusion reading flips
from occluded to clear leaves the loop unchanged, and with no interdiction
the loop completes. -/
theorem C5_witness :
    flyAwayT 60 [⟨0, 0, false, true⟩] = flyAwayT 60 [⟨0, 0, false, false⟩] ∧
    (flyAwayT 60 [⟨0, 0, false, true⟩]).1 = FlyExit.completed := by
  constructor
  · exact (C5_flyaway_guarantee 60 [⟨0, 0, false, true⟩] [⟨0, 0, false, false⟩]).1
      (List.Forall₂.cons ⟨rfl, rfl, rfl⟩ List.Forall₂.nil)
  · refine (C5_flyaway_guarantee 60 [⟨0, 0, false, true⟩] [⟨0, 0, false, false⟩]).2.2 ?_
    intro k hk
    rw [List.mem_singleton.mp hk]

/-! ## Theorems: retry escalation -/

/-- The source defaults of `execute`'s configuration reads. -/
def defaultSCConfig : SCConfig := {}

/-- Helper: every non-hard attempt call logged by the retry loop carries the
escalated duration and yaw drift of its index. -/
lemma scTry_calls_shape (cfg : SCConfig) (gcfg : GateConfig) (pitchRate : ℚ)
    (envs : ℕ → AttemptEnv) :
    ∀ rem i c, c ∈ (scTryAttempts cfg gcfg pitchRate envs i rem).2.2 →
      c.isHard = false →
      c.duration = scDuration cfg c.index ∧ c.yawDrift = scYaw cfg c.index := by
  intro rem
  induction rem with
  | zero =>
    intro i c hc hh
    simp only [scTryAttempts, List.mem_singleton] at hc
    rw [hc] at hh
    exact absurd hh (by simp)
  | succ rem ih =>
    intro i c hc hh
    simp only [scTryAttempts] at hc
    by_cases hr : (attemptManeuver gcfg pitchRate (scDuration cfg i) (scYaw cfg i) i
        (envs i)).1 = true
    · rw [if_pos hr] at hc
      simp only [List.mem_singleton] at hc
      rw [hc]
      exact ⟨rfl, rfl⟩
    · rw [if_neg hr] at hc
      rcases List.mem_cons.mp hc with hceq | hmem
      · rw [hceq]
        exact ⟨rfl, rfl⟩
      · exact ih (i + 1) c hmem hh

/-- C4 counterexample: with the default configuration the yaw drift does not
increase from attempt 1 to attempt 2 — the code keeps it at the constant
increment (15°) on every retry, instead of adding the increment per attempt. -/
theorem C4_counterexample :
    scYaw defaultSCConfig 1 = 15 ∧ scYaw defaultSCConfig 2 = 15 ∧
    scYaw defaultSCConfig 2 ≠ scYaw defaultSCConfig 1 + defaultSCConfig.yawDegrees := by
  refine ⟨rfl, rfl, ?_⟩
  norm_num [scYaw, defaultSCConfig]

/-- C4 (amended): across attempts the configured duration equals
`min(base + 30·i, DurationMax)`, is non-decreasing in the attempt index and
capped at `DurationMax`; the yaw drift is 0 on attempt 0 and equals the
configured increment (constant, not accumulating) on every subsequent
attempt; and every non-hard attempt the driver logs uses exactly these
values. -/
theorem C4_escalation_amended (cfg : SCConfig) :
    (∀ i : ℕ, scDuration cfg i = min (cfg.durationBase + (i : ℚ) * 30) cfg.durationMax) ∧
    (∀ i j : ℕ, i ≤ j → scDuration cfg i ≤ scDuration cfg j) ∧
    (∀ i : ℕ, scDuration cfg i ≤ cfg.durationMax) ∧
    scYaw cfg 0 = 0 ∧
    (∀ i : ℕ, i ≠ 0 → scYaw cfg i = cfg.yawDegrees) ∧
    (∀ gcfg pitchRate envs dest c,
      c ∈ (scExecute cfg gcfg pitchRate dest envs).2.2 → c.isHard = false →
      c.duration = scDuration cfg c.index ∧ c.yawDrift = scYaw cfg c.index) := by
  refine ⟨fun i => rfl, ?_, ?_, rfl, ?_, ?_⟩
  · intro i j hij
    unfold scDuration
    refine min_le_min (add_le_add_left ?_ cfg.durationBase) le_rfl
    have : (i : ℚ) ≤ (j : ℚ) := by exact_mod_cast hij
    nlinarith
  · intro i
    exact min_le_right _ _
  · intro i hi
    unfold scYaw
    rw [if_neg hi]
  · intro gcfg pitchRate envs dest c hc hh
    cases dest with
    | some o => simp [scExecute] at hc
    | none => exact scTry_calls_shape cfg gcfg pitchRate envs cfg.maxAttempts 0 c hc hh

/-- Witness for C4 (amended) at the default configuration. -/
theorem C4_witness :
    scDuration defaultSCConfig 1 ≤ scDuration defaultSCConfig 2 ∧
    scDuration defaultSCConfig 2 ≤ defaultSCConfig.durationMax ∧
    scYaw defaultSCConfig 3 = defaultSCConfig.yawDegrees :=
  ⟨(C4_escalation_amended defaultSCConfig).2.1 1 2 (by norm_num),
   (C4_escalation_amended defaultSCConfig).2.2.1 2,
   (C4_escalation_amended defaultSCConfig).2.2.2.2.1 3 (by norm_num)⟩

/-! ## Theorems: guard, exhaustion, totality of execute -/

/-- C6: guard short-circuit — when `get_destination_offset` resolves to a
visible target at the start of `execute`, the maneuver returns `True`
immediately with only a log notification: no attempt is started and no
flight-input command (key send, pitch, yaw) is issued. -/
theorem C6_guard_short_circuit (cfg : SCConfig) (gcfg : GateConfig) (pitchRate : ℚ)
    (off : ℚ × ℚ) (envs : ℕ → AttemptEnv) :
    scExecute cfg gcfg pitchRate (some off) envs =
      (true, [Eff.notify "log" "Avoidance aborted: Target visible"], []) ∧
    ∀ e ∈ (scExecute cfg gcfg pitchRate (some off) envs).2.1, isFlightEff e = false := by
  refine ⟨rfl, ?_⟩
  intro e he
  have heq : e = Eff.notify "log" "Avoidance aborted: Target visible" := by
    simpa [scExecute] using he
  rw [heq]
  rfl

/-- Witness for C6 at a concrete invocation with a resolved destination
offset. -/
theorem C6_witness :
    scExecute defaultSCConfig ⟨true, 1, 12, 1⟩ 10 (some (0, 0))
        (fun _ => ⟨[], 0, [], false, false⟩) =
      (true, [Eff.notify "log" "Avoidance aborted: Target visible"], []) :=
  (C6_guard_short_circuit defaultSCConfig ⟨true, 1, 12, 1⟩ 10 (0, 0)
    (fun _ => ⟨[], 0, [], false, false⟩)).1

/-- Helper: the retry loop (with its terminal hard escape) always reports
`True`. -/
lemma scTry_fst (cfg : SCConfig) (gcfg : GateConfig) (pitchRate : ℚ)
    (envs : ℕ → AttemptEnv) :
    ∀ rem i, (scTryAttempts cfg gcfg pitchRate envs i rem).1 = true := by
  intro rem
  induction rem with
  | zero => intro i; rfl
  | succ rem ih =>
    intro i
    simp only [scTryAttempts]
    by_cases hr : (attemptManeuver gcfg pitchRate (scDuration cfg i) (scYaw cfg i) i
        (envs i)).1 = true
    · rw [if_pos hr]
    · rw [if_neg hr]
      exact ih (i + 1)

/-- Helper: when every standard attempt in the window fails, the retry loop
logs exactly one hard call (long duration, 1.5 × yaw increment, index 99)
and exactly `rem` standard calls. -/
lemma scTry_exhaustion (cfg : SCConfig) (gcfg : GateConfig) (pitchRate : ℚ)
    (envs : ℕ → AttemptEnv) :
    ∀ rem i,
      (∀ j, j < i + rem →
        (attemptManeuver gcfg pitchRate (scDuration cfg j) (scYaw cfg j) j (envs j)).1 = false) →
      ((scTryAttempts cfg gcfg pitchRate envs i rem).2.2.filter (fun c => c.isHard) =
        [⟨cfg.hardEscapeSeconds, cfg.yawDegrees * (3 / 2), 99, true⟩]) ∧
      (((scTryAttempts cfg gcfg pitchRate envs i rem).2.2.filter (fun c => !c.isHard)).length
        = rem) := by
  intro rem
  induction rem with
  | zero =>
    intro i _
    exact ⟨rfl, rfl⟩
  | succ rem ih =>
    intro i h
    have hr : (attemptManeuver gcfg pitchRate (scDuration cfg i) (scYaw cfg i) i
        (envs i)).1 = false := h i (by omega)
    have hr2 : ¬ (attemptManeuver gcfg pitchRate (scDuration cfg i) (scYaw cfg i) i
        (envs i)).1 = true := by
      rw [hr]; exact Bool.false_ne_true
    have ihm := ih (i + 1) (fun j hj => h j (by omega))
    simp only [scTryAttempts, if_neg hr2]
    constructor
    · simpa [List.filter] using ihm.1
    · simpa [List.filter] using ihm.2

/-- C7: exhaustion behaviour — when every standard attempt fails, `execute`
still returns `True`, having performed exactly one hard-escape call with the
configured hard-escape duration and 1.5 × the yaw increment (its own result
discarded), after exactly `max_attempts` standard calls. -/
theorem C7_exhaustion (cfg : SCConfig) (gcfg : GateConfig) (pitchRate : ℚ)
    (envs : ℕ → AttemptEnv)
    (h : ∀ j, j < cfg.maxAttempts →
      (attemptManeuver gcfg pitchRate (scDuration cfg j) (scYaw cfg j) j (envs j)).1 = false) :
    (scExecute cfg gcfg pitchRate none envs).1 = true ∧
    ((scExecute cfg gcfg pitchRate none envs).2.2.filter (fun c => c.isHard) =
      [⟨cfg.hardEscapeSeconds, cfg.yawDegrees * (3 / 2), 99, true⟩]) ∧
    (((scExecute cfg gcfg pitchRate none envs).2.2.filter (fun c => !c.isHard)).length
      = cfg.maxAttempts) := by
  have he := scTry_exhaustion cfg gcfg pitchRate envs cfg.maxAttempts 0
    (fun j hj => h j (by omega))
  exact ⟨scTry_fst cfg gcfg pitchRate envs cfg.maxAttempts 0, he.1, he.2⟩

/-- Witness for C7: an environment in which the gate always fails, the
fly-away trace is empty and the final occlusion re-check stays occluded, so
every standard attempt fails. -/
theorem C7_witness :
    (scExecute defaultSCConfig ⟨true, 1, 12, 1⟩ 10 none
        (fun _ => ⟨[], 0, [], true, true⟩)).1 = true ∧
    ((scExecute defaultSCConfig ⟨true, 1, 12, 1⟩ 10 none
        (fun _ => ⟨[], 0, [], true, true⟩)).2.2.filter (fun c => c.isHard) =
      [⟨120, 15 * (3 / 2), 99, true⟩]) ∧
    (((scExecute defaultSCConfig ⟨true, 1, 12, 1⟩ 10 none
        (fun _ => ⟨[], 0, [], true, true⟩)).2.2.filter (fun c => !c.isHard)).length = 3) :=
  C7_exhaustion defaultSCConfig ⟨true, 1, 12, 1⟩ 10 (fun _ => ⟨[], 0, [], true, true⟩)
    (fun _ _ => rfl)

/-- C10: for every invocation — guard path, successful attempt, or
exhaustion with hard escape — `SupercruiseAvoidance.execute` returns `True`;
a caller can never observe `False`. -/
theorem C10_execute_total (cfg : SCConfig) (gcfg : GateConfig) (pitchRate : ℚ)
    (dest : Option (ℚ × ℚ)) (envs : ℕ → AttemptEnv) :
    (scExecute cfg gcfg pitchRate dest envs).1 = true := by
  cases dest with
  | some o => rfl
  | none => exact scTry_fst cfg gcfg pitchRate envs cfg.maxAttempts 0

/-! ## Theorems: interrupt handling -/

/-- Helper: a pitch-phase interdicted exit releases the pitch hold and zeroes
the speed, and emits nothing else. -/
lemma sunPitch_interdicted_effs (fs : ℚ) (ts : List SunTick) :
    ∀ e effs, sunPitchLoop fs ts = some (e, effs) → e = SunPitchExit.interdicted →
    effs = [Eff.keySend "PitchUpButton" (some 0), Eff.keySend "SetSpeedZero" none] := by
  induction ts with
  | nil => intro e effs h _; simp [sunPitchLoop] at h
  | cons k rest ih =>
    intro e effs h he
    unfold sunPitchLoop at h
    by_cases h5 : k.sunPercent ≤ 5
    · rw [if_pos h5] at h
      simp only [Option.some.injEq, Prod.mk.injEq] at h
      exact absurd (h.1.trans he) (by simp)
    · rw [if_neg h5] at h
      by_cases hi : k.interdicted = true
      · rw [if_pos hi] at h
        simp only [Option.some.injEq, Prod.mk.injEq] at h
        exact h.2.symm
      · rw [if_neg hi] at h
        by_cases hto : fs < k.elapsed
        · rw [if_pos hto] at h
          simp only [Option.some.injEq, Prod.mk.injEq] at h
          exact absurd (h.1.trans he) (by simp)
        · rw [if_neg hto] at h
          exact ih e effs h he

/-- Helper: an interdicted fly-away exit makes the attempt report `True`
(handled), immediately. -/
lemma attempt_interdicted_true (gcfg : GateConfig) (pr dur yaw : ℚ) (idx : ℕ)
    (env : AttemptEnv) (h : (flyAwayT dur env.flyTicks).1 = FlyExit.interdicted) :
    (attemptManeuver gcfg pr dur yaw idx env).1 = true := by
  simp only [attemptManeuver]
  rw [h]

/-- Helper: the fly-away loop emits no speed command on any path. -/
lemma flyAwayT_no_speed (duration : ℚ) (ts : List FlyTick) :
    ∀ e ∈ (flyAwayT duration ts).2, isSpeedEff e = false := by
  induction ts with
  | nil => intro e he; simp [flyAwayT] at he
  | cons k rest ih =>
    intro e he
    by_cases ht : k.t < duration
    · by_cases hi : k.interdicted = true
      · simp only [flyAwayT, if_pos ht, if_pos hi] at he
        by_cases hp : pathClear k.sunPercent = true
        · rw [if_pos hp] at he
          simp at he
        · rw [if_neg hp] at he
          simp only [List.mem_cons, List.mem_singleton] at he
          rcases he with rfl | rfl | rfl | he2
          · rfl
          · rfl
          · rfl
          · simp at he2
      · simp only [flyAwayT, if_pos ht, if_neg hi] at he
        rcases List.mem_append.mp he with hp2 | hr
        · by_cases hp : pathClear k.sunPercent = true
          · rw [if_pos hp] at hp2
            simp at hp2
          · rw [if_neg hp] at hp2
            simp only [List.mem_cons, List.mem_singleton] at hp2
            rcases hp2 with rfl | rfl | rfl | hp3
            · rfl
            · rfl
            · rfl
            · simp at hp3
        · exact ih e hr
    · simp only [flyAwayT, if_neg ht] at he
      simp at he

/-- Helper: an interdicted sun-avoidance fly-loop exit comes from an
interdicted tick. -/
lemma sunFly_interdicted (duration : ℚ) (ts : List SunTick) :
    (sunFlyLoop duration ts).1 = FlyExit.interdicted →
    ∃ k ∈ ts, k.interdicted = true := by
  induction ts with
  | nil => intro h; simp [sunFlyLoop] at h
  | cons k rest ih =>
    intro h
    by_cases ht : k.elapsed < duration
    · by_cases hi : k.interdicted = true
      · exact ⟨k, List.mem_cons_self k rest, hi⟩
      · simp only [sunFlyLoop, if_pos ht, if_neg hi] at h
        obtain ⟨q, hq, hqi⟩ := ih h
        exact ⟨q, List.mem_cons_of_mem k hq, hqi⟩
    · simp only [sunFlyLoop, if_neg ht] at h
      exact absurd h (by simp)

/-- Helper: the sun-avoidance fly loop emits no speed command on any path. -/
lemma sunFly_no_speed (duration : ℚ) (ts : List SunTick) :
    ∀ e ∈ (sunFlyLoop duration ts).2, isSpeedEff e = false := by
  induction ts with
  | nil => intro e he; simp [sunFlyLoop] at he
  | cons k rest ih =>
    intro e he
    by_cases ht : k.elapsed < duration
    · by_cases hi : k.interdicted = true
      · simp only [sunFlyLoop, if_pos ht, if_pos hi] at he
        simp at he
      · simp only [sunFlyLoop, if_pos ht, if_neg hi] at he
        rcases List.mem_append.mp he with hp2 | hr
        · by_cases hp : (5 : ℚ) < k.sunPercent
          · rw [if_pos hp] at hp2
            simp only [List.mem_cons, List.mem_singleton] at hp2
            rcases hp2 with rfl | rfl | hp3
            · rfl
            · rfl
            · simp at hp3
          · rw [if_neg hp] at hp2
            simp at hp2
        · exact ih e hr
    · simp only [sunFlyLoop, if_neg ht] at he
      simp at he

/-- C9 counterexample: at a concrete fly-away interdiction of the
Supercruise controller, the attempt returns `True` (handled), but no
speed-zeroing or speed-reducing command is issued on the abort path — the
last command sent remains the full-throttle `SetSpeed100` from the start of
the fly-away phase, refuting "zeroing/reducing speed" at every interdiction
polling point. -/
theorem C9_counterexample :
    (flyAwayT 60 [⟨0, 0, true, false⟩]).1 = FlyExit.interdicted ∧
    (attemptManeuver ⟨true, 1, 12, 1⟩ 10 60 0 0
      ⟨[], 0, [⟨0, 0, true, false⟩], false, false⟩).1 = true ∧
    (attemptManeuver ⟨true, 1, 12, 1⟩ 10 60 0 0
      ⟨[], 0, [⟨0, 0, true, false⟩], false, false⟩).2.getLast? =
      some (Eff.keySend "SetSpeed100" none) :=
  ⟨rfl, rfl, rfl⟩

/-- C9 (amended): at every interdiction polling point the controller aborts
immediately and reports `True` (handled): the sun-avoidance pitch phase
releases the pitch hold and zeroes the speed; the fly-away phases of both
controllers return with an interdicted exit that can only come from an
interdiction signal, and issue no speed command at all on that path (speed
is left as previously set, not zeroed or reduced). -/
theorem C9_interrupts_amended :
    (∀ (fs : ℚ) (ts : List SunTick) (e : SunPitchExit) (effs : List Eff),
      sunPitchLoop fs ts = some (e, effs) → e = SunPitchExit.interdicted →
      effs = [Eff.keySend "PitchUpButton" (some 0), Eff.keySend "SetSpeedZero" none]) ∧
    (∀ (gcfg : GateConfig) (pr dur yaw : ℚ) (idx : ℕ) (env : AttemptEnv),
      (flyAwayT dur env.flyTicks).1 = FlyExit.interdicted →
      (attemptManeuver gcfg pr dur yaw idx env).1 = true) ∧
    (∀ (dur : ℚ) (ts : List FlyTick),
      (flyAwayT dur ts).1 = FlyExit.interdicted → ∃ k ∈ ts, k.interdicted = true) ∧
    (∀ (dur : ℚ) (ts : List FlyTick) (e : Eff),
      e ∈ (flyAwayT dur ts).2 → isSpeedEff e = false) ∧
    (∀ (dur : ℚ) (ts : List SunTick),
      (sunFlyLoop dur ts).1 = FlyExit.interdicted → ∃ k ∈ ts, k.interdicted = true) ∧
    (∀ (dur : ℚ) (ts : List SunTick) (e : Eff),
      e ∈ (sunFlyLoop dur ts).2 → isSpeedEff e = false) :=
  ⟨fun fs ts e effs => sunPitch_interdicted_effs fs ts e effs,
   fun gcfg pr dur yaw idx env => attempt_interdicted_true gcfg pr dur yaw idx env,
   fun dur ts h =>
     (flyAwayT_interdicted dur ts h).elim fun k hk => ⟨k, hk.1, hk.2.1⟩,
   fun dur ts e he => flyAwayT_no_speed dur ts e he,
   fun dur ts => sunFly_interdicted dur ts,
   fun dur ts e he => sunFly_no_speed dur ts e he⟩

/-- Witness for C9 (amended): a concrete interdicted fly-away makes the
attempt report handled. -/
theorem C9_witness :
    (attemptManeuver ⟨true, 1, 12, 1⟩ 10 60 5 0
      ⟨[], 0, [⟨0, 0, true, false⟩], false, false⟩).1 = true :=
  C9_interrupts_amended.2.1 ⟨true, 1, 12, 1⟩ 10 60 5 0
    ⟨[], 0, [⟨0, 0, true, false⟩], false, false⟩ rfl

/-! ## Theorems: distance parser -/

/-- C8: the distance parser — `"7.5km"` gives 7.5, `"4..5km"` repairs the
doubled decimal point and gives 4.5, `"1.2Mm"` gives 1200, `"800m"` gives
0.8, an `ls` input is converted with the 299792 factor, and the parser
returns no value whenever the regex finds no number-unit pattern or the
captured value is non-numeric. -/
theorem C8_parse_distance :
    parse_distance "7.5km" = some (15 / 2) ∧
    parse_distance "4..5km" = some (9 / 2) ∧
    parse_distance "1.2Mm" = some 1200 ∧
    parse_distance "800m" = some (4 / 5) ∧
    parse_distance "2ls" = some (2 * 299792) ∧
    (∀ t : String, findNumberUnit t.toList = none → parse_distance t = none) ∧
    (∀ (t : String) (run : List Char) (u : DistUnit),
      findNumberUnit t.toList = some (run, u) →
      parseFloatQ (fixDots run) = none → parse_distance t = none) :=
  ⟨parse_75km, parse_45km, parse_12Mm, parse_800m,
   by rw [parse_2ls]; norm_num,
   parse_none_no_match, parse_none_bad_float⟩

/-- Witness for C8: a string with no number-unit pattern, and a string whose
captured value is all dots (non-numeric after repair). -/
theorem C8_witness :
    parse_distance "no numbers here" = none ∧ parse_distance "..km" = none :=
  ⟨C8_parse_distance.2.2.2.2.2.1 "no numbers here" (by decide),
   C8_parse_distance.2.2.2.2.2.2 "..km" ['.', '.'] DistUnit.km (by decide) (by decide)⟩

end EDAP
